import Mathlib

/-
Verification of the career-coach chatbot (src/chatbot.py) against its
natural-language specification.

Modelling conventions:
- The remote generation call `model.generate_content(prompt)` is modelled as a
  function `GenClient : String → Except String String`; `Except.ok t` stands for
  a successful response with `response.text = t`, and `Except.error e` stands
  for the call raising an exception whose `str(e)` is `e`.
- Each use-case helper returns the string the Python function returns, paired
  with the list of prompts it sent to the generation client (so that claims
  about the client never being invoked can be stated as `genPrompts = []`).
- A PDF input is modelled by the outcome of parsing it: `PyPDF2.PdfReader` may
  raise (the `Except.error` case of `PdfFile`), and otherwise yields a list of
  pages, each of whose `extract_text()` call may itself raise.
- Streamlit display calls `st.error(msg)` are modelled as an `errors : List
  String` component of the result; the rendered/downloadable text is the
  `output : Option String` component (`none` when the branch produced nothing).
- Python string truthiness (`if resume_text:`, `if goal:`, ...) is modelled as
  a comparison with the empty string, since `None` and `""` are the only falsy
  values these variables can take.
-/

namespace ResumeChatbot

/-- Containment of `needle` in `hay` as a verbatim contiguous substring. -/
def containsVerbatim (hay needle : String) : Prop :=
  ∃ a b : String, hay = a ++ needle ++ b

/-- Behaviour of `model.generate_content`: success text or raised exception. -/
abbrev GenClient := String → Except String String

/-- Outcome of parsing an uploaded PDF: a parse exception, or the list of
pages, each page either yielding its extracted text or raising. -/
abbrev PdfFile := Except String (List (Except String String))

/-- Result of one UI branch: the rendered/downloadable text (if any), the
messages shown via st.error, and the prompts sent to the generation client. -/
structure DispatchOut where
  output : Option String
  errors : List String
  genPrompts : List String

/-- Literal segment of the resume-feedback f-string before the slot
(src/chatbot.py lines 33-45). -/
def resumePre : String :=
  "\n    Analyze the following resume and provide professional feedback. \n    Focus on:\n    1. Content quality and relevance\n    2. Formatting and structure\n    3. Skills presentation\n    4. Project descriptions\n    5. Career path recommendations\n    6. Areas for improvement\n    \n    Please provide specific, actionable suggestions.\n\n    Resume Content:\n    "

/-- Literal segment of the resume-feedback f-string after the slot. -/
def resumePost : String := "\n    "

/-- Rendered resume-feedback prompt (src/chatbot.py lines 33-47). -/
def resume_prompt (resume_text : String) : String :=
  resumePre ++ resume_text ++ resumePost

/-- Literal segment of the roadmap f-string before the slot
(src/chatbot.py lines 57-58). -/
def roadmapPre : String :=
  "\n    Create a detailed learning and career roadmap for someone who wants to become a "

/-- Literal segment of the roadmap f-string after the slot
(src/chatbot.py lines 58-71). -/
def roadmapPost : String :=
  ". \n    \n    Please include:\n    1. Essential skills and technologies to learn\n    2. Recommended learning sequence (beginner to advanced)\n    3. Important tools and frameworks\n    4. Relevant certifications\n    5. Practice project ideas\n    6. Timeline estimates\n    7. Job market insights\n    8. Salary expectations\n    \n    Format the response clearly with sections and bullet points where appropriate.\n    "

/-- Rendered roadmap prompt (src/chatbot.py lines 57-71). -/
def roadmap_prompt (goal : String) : String :=
  roadmapPre ++ goal ++ roadmapPost

/-- Literal segment of the mock-interview f-string before the slot
(src/chatbot.py lines 81-82). -/
def mockPre : String :=
  "\n    Create a mock technical interview simulation for a "

/-- Literal segment of the mock-interview f-string after the slot
(src/chatbot.py lines 82-94). -/
def mockPost : String :=
  " role. \n    \n    Please provide:\n    1. 5 technical questions (mix of conceptual and practical)\n    2. 2 behavioral questions\n    3. 1 scenario-based problem-solving question\n    \n    For each question, also provide:\n    - What the interviewer is looking for\n    - Key points a good answer should cover\n    \n    Format this as a realistic interview experience.\n    "

/-- Rendered mock-interview prompt (src/chatbot.py lines 81-94). -/
def mock_prompt (domain : String) : String :=
  mockPre ++ domain ++ mockPost

/-- Literal segment of the career-advice f-string before the slot
(src/chatbot.py lines 104-107). -/
def advicePre : String :=
  "\n    As an experienced career coach, please provide helpful and actionable advice for the following career question:\n    \n    Question: "

/-- Literal segment of the career-advice f-string after the slot
(src/chatbot.py lines 107-114). -/
def advicePost : String :=
  "\n    \n    Please provide:\n    1. Direct answer to the question\n    2. Practical steps to take\n    3. Additional considerations\n    4. Resources or next steps to explore\n    "

/-- Rendered career-advice prompt (src/chatbot.py lines 104-114). -/
def advice_prompt (question : String) : String :=
  advicePre ++ question ++ advicePost

/-- Embedding of get_resume_feedback (src/chatbot.py lines 31-53): builds the
prompt, calls the client, returns response.text on success and the
stringified exception with the fixed message otherwise.  The second component
records the prompts sent to the client. -/
def get_resume_feedback (gen : GenClient) (resume_text : String) :
    String × List String :=
  let prompt := resume_prompt resume_text
  match gen prompt with
  | Except.ok response => (response, [prompt])
  | Except.error e => ("Error generating feedback: " ++ e, [prompt])

/-- Embedding of generate_roadmap (src/chatbot.py lines 55-77). -/
def generate_roadmap (gen : GenClient) (goal : String) :
    String × List String :=
  let prompt := roadmap_prompt goal
  match gen prompt with
  | Except.ok response => (response, [prompt])
  | Except.error e => ("Error generating roadmap: " ++ e, [prompt])

/-- Embedding of mock_interview (src/chatbot.py lines 79-100). -/
def mock_interview (gen : GenClient) (domain : String) :
    String × List String :=
  let prompt := mock_prompt domain
  match gen prompt with
  | Except.ok response => (response, [prompt])
  | Except.error e => ("Error generating interview questions: " ++ e, [prompt])

/-- Embedding of get_career_advice (src/chatbot.py lines 102-120). -/
def get_career_advice (gen : GenClient) (question : String) :
    String × List String :=
  let prompt := advice_prompt question
  match gen prompt with
  | Except.ok response => (response, [prompt])
  | Except.error e => ("Error generating advice: " ++ e, [prompt])

/-- The page loop of extract_text_from_pdf (src/chatbot.py lines 23-25):
`text = ""` then `for page in pdf_reader.pages: text += page.extract_text()`,
where a raising page aborts the whole try block with that exception. -/
def extract_pages : List (Except String String) → String → Except String String
  | [], text => Except.ok text
  | page :: rest, text =>
    match page with
    | Except.ok t => extract_pages rest (text ++ t)
    | Except.error e => Except.error e

/-- Embedding of extract_text_from_pdf (src/chatbot.py lines 19-29): returns
the concatenated text, or on any exception shows the diagnostic via st.error
and returns None.  First component is the return value, second the list of
st.error messages displayed. -/
def extract_text_from_pdf (uploaded_file : PdfFile) :
    Option String × List String :=
  match uploaded_file with
  | Except.error e => (none, ["Error reading PDF: " ++ e])
  | Except.ok pages =>
    match extract_pages pages "" with
    | Except.ok text => (some text, [])
    | Except.error e => (none, ["Error reading PDF: " ++ e])

/-- Embedding of the Resume Feedback branch (src/chatbot.py lines 158-174):
extract the text; only when the extracted text is truthy (not None, not the
empty string) call get_resume_feedback and render/download the feedback. -/
def dispatchResumeFeedback (gen : GenClient) (uploaded_file : PdfFile) :
    DispatchOut :=
  match extract_text_from_pdf uploaded_file with
  | (some resume_text, errs) =>
    if resume_text = "" then ⟨none, errs, []⟩
    else
      let fb := get_resume_feedback gen resume_text
      ⟨some fb.1, errs, fb.2⟩
  | (none, errs) => ⟨none, errs, []⟩

/-- Embedding of the Career Roadmap branch (src/chatbot.py lines 195-211):
guarded by the truthiness of goal; builds the enhanced prompt string
appending the experience level and forwards it to generate_roadmap. -/
def dispatchCareerRoadmap (gen : GenClient)
    (goal experience_level : String) : DispatchOut :=
  if goal = "" then ⟨none, [], []⟩
  else
    let enhanced_prompt := goal ++ " (Current level: " ++ experience_level ++ ")"
    let rm := generate_roadmap gen enhanced_prompt
    ⟨some rm.1, [], rm.2⟩

/-- Embedding of the Mock Interview branch (src/chatbot.py lines 232-248):
guarded by the truthiness of domain; builds the enhanced prompt string
appending the interview focus and forwards it to mock_interview. -/
def dispatchMockInterview (gen : GenClient)
    (domain interview_type : String) : DispatchOut :=
  if domain = "" then ⟨none, [], []⟩
  else
    let enhanced_prompt := domain ++ " - " ++ interview_type ++ " focus"
    let qs := mock_interview gen enhanced_prompt
    ⟨some qs.1, [], qs.2⟩

/-- Embedding of the Career Advice branch (src/chatbot.py lines 261-275):
guarded by the truthiness of question; forwards it to get_career_advice. -/
def dispatchCareerAdvice (gen : GenClient) (question : String) : DispatchOut :=
  if question = "" then ⟨none, [], []⟩
  else
    let adv := get_career_advice gen question
    ⟨some adv.1, [], adv.2⟩

/-- Module-level credential lookup (src/chatbot.py line 13):
`os.getenv("GEMINI_API_KEY")`, which is None when the variable is absent. -/
def GEMINI_API_KEY (env : String → Option String) : Option String :=
  env "GEMINI_API_KEY"

/-- Module-level client configuration (src/chatbot.py lines 13-16): the
remote service behaviour `remote` is fixed with whatever credential the
environment supplies — absent included — with no guard in between; every
later `generate_content` call goes straight to the remote service with that
credential. -/
def configuredClient (env : String → Option String)
    (remote : Option String → String → Except String String) : GenClient :=
  fun prompt => remote (GEMINI_API_KEY env) prompt

/-- Helper: a needle sitting in the trailing literal segment of a rendered
template is contained verbatim in the whole prompt. -/
theorem cv_slot (p d x n y : String) :
    containsVerbatim ((p ++ d) ++ (x ++ n ++ y)) n :=
  ⟨(p ++ d) ++ x, y, by simp [String.append_assoc]⟩

/-- Helper: a trailing needle is contained verbatim. -/
theorem cv_tail (a n : String) : containsVerbatim (a ++ n) n :=
  ⟨a, "", (String.append_empty _).symm⟩

/-- Helper: appending to a string of nonzero length never yields the empty
string. -/
theorem append_ne_nil (a b : String) (h : a.length ≠ 0) : a ++ b ≠ "" := by
  intro hc
  have h2 := congrArg String.length hc
  simp [String.length_append] at h2
  exact h h2.1

/-- Helper: the page loop on pages that all succeed returns the left fold of
string concatenation over the page texts. -/
theorem extract_pages_ok (texts : List String) (acc : String) :
    extract_pages (texts.map Except.ok) acc =
      Except.ok (texts.foldl (fun a b => a ++ b) acc) := by
  induction texts generalizing acc with
  | nil => rfl
  | cons t ts ih => simpa [extract_pages] using ih (acc ++ t)

/-- Helper: the page loop aborts with the first page exception, whatever text
was accumulated before it. -/
theorem extract_pages_error (texts : List String) (e : String)
    (rest : List (Except String String)) (acc : String) :
    extract_pages (texts.map Except.ok ++ Except.error e :: rest) acc =
      Except.error e := by
  induction texts generalizing acc with
  | nil => rfl
  | cons t ts ih => simpa [extract_pages] using ih (acc ++ t)

/-- Claim C1: for every use case, if the remote generation call raises any
exception, the use-case function does not propagate it; it returns a failure
message that is non-empty and embeds the underlying error description
verbatim. -/
theorem generation_error_becomes_failure_message (gen : GenClient)
    (e r g d q : String) :
    (gen (resume_prompt r) = Except.error e →
      (get_resume_feedback gen r).1 = "Error generating feedback: " ++ e ∧
      (get_resume_feedback gen r).1 ≠ "" ∧
      containsVerbatim (get_resume_feedback gen r).1 e) ∧
    (gen (roadmap_prompt g) = Except.error e →
      (generate_roadmap gen g).1 = "Error generating roadmap: " ++ e ∧
      (generate_roadmap gen g).1 ≠ "" ∧
      containsVerbatim (generate_roadmap gen g).1 e) ∧
    (gen (mock_prompt d) = Except.error e →
      (mock_interview gen d).1 = "Error generating interview questions: " ++ e ∧
      (mock_interview gen d).1 ≠ "" ∧
      containsVerbatim (mock_interview gen d).1 e) ∧
    (gen (advice_prompt q) = Except.error e →
      (get_career_advice gen q).1 = "Error generating advice: " ++ e ∧
      (get_career_advice gen q).1 ≠ "" ∧
      containsVerbatim (get_career_advice gen q).1 e) := by
  refine ⟨fun h => ?_, fun h => ?_, fun h => ?_, fun h => ?_⟩
  · have hv : (get_resume_feedback gen r).1 = "Error generating feedback: " ++ e := by
      simp [get_resume_feedback, h]
    exact ⟨hv, by rw [hv]; exact append_ne_nil _ _ (by decide),
      by rw [hv]; exact cv_tail _ e⟩
  · have hv : (generate_roadmap gen g).1 = "Error generating roadmap: " ++ e := by
      simp [generate_roadmap, h]
    exact ⟨hv, by rw [hv]; exact append_ne_nil _ _ (by decide),
      by rw [hv]; exact cv_tail _ e⟩
  · have hv : (mock_interview gen d).1 = "Error generating interview questions: " ++ e := by
      simp [mock_interview, h]
    exact ⟨hv, by rw [hv]; exact append_ne_nil _ _ (by decide),
      by rw [hv]; exact cv_tail _ e⟩
  · have hv : (get_career_advice gen q).1 = "Error generating advice: " ++ e := by
      simp [get_career_advice, h]
    exact ⟨hv, by rw [hv]; exact append_ne_nil _ _ (by decide),
      by rw [hv]; exact cv_tail _ e⟩

/-- Witness for C1: a client double that raises a transport fault on any
prompt makes each use-case function return the fixed message with the fault
text embedded. -/
theorem generation_error_becomes_failure_message_witness :
    ((fun _ : String => (Except.error "socket timeout" : Except String String))
        (resume_prompt "my resume") = Except.error "socket timeout" →
      (get_resume_feedback (fun _ => Except.error "socket timeout") "my resume").1 =
        "Error generating feedback: " ++ "socket timeout" ∧
      (get_resume_feedback (fun _ => Except.error "socket timeout") "my resume").1 ≠ "" ∧
      containsVerbatim
        (get_resume_feedback (fun _ => Except.error "socket timeout") "my resume").1
        "socket timeout") ∧
    ((fun _ : String => (Except.error "socket timeout" : Except String String))
        (roadmap_prompt "DevOps Engineer") = Except.error "socket timeout" →
      (generate_roadmap (fun _ => Except.error "socket timeout") "DevOps Engineer").1 =
        "Error generating roadmap: " ++ "socket timeout" ∧
      (generate_roadmap (fun _ => Except.error "socket timeout") "DevOps Engineer").1 ≠ "" ∧
      containsVerbatim
        (generate_roadmap (fun _ => Except.error "socket timeout") "DevOps Engineer").1
        "socket timeout") ∧
    ((fun _ : String => (Except.error "socket timeout" : Except String String))
        (mock_prompt "Data Analyst") = Except.error "socket timeout" →
      (mock_interview (fun _ => Except.error "socket timeout") "Data Analyst").1 =
        "Error generating interview questions: " ++ "socket timeout" ∧
      (mock_interview (fun _ => Except.error "socket timeout") "Data Analyst").1 ≠ "" ∧
      containsVerbatim
        (mock_interview (fun _ => Except.error "socket timeout") "Data Analyst").1
        "socket timeout") ∧
    ((fun _ : String => (Except.error "socket timeout" : Except String String))
        (advice_prompt "How do I negotiate salary?") = Except.error "socket timeout" →
      (get_career_advice (fun _ => Except.error "socket timeout")
        "How do I negotiate salary?").1 = "Error generating advice: " ++ "socket timeout" ∧
      (get_career_advice (fun _ => Except.error "socket timeout")
        "How do I negotiate salary?").1 ≠ "" ∧
      containsVerbatim
        (get_career_advice (fun _ => Except.error "socket timeout")
          "How do I negotiate salary?").1 "socket timeout") :=
  generation_error_becomes_failure_message
    (fun _ => Except.error "socket timeout") "socket timeout"
    "my resume" "DevOps Engineer" "Data Analyst" "How do I negotiate salary?"

/-- Claim C2: every rendered prompt contains each user-supplied field value
verbatim as a contiguous substring, both at the builder level and through the
dispatch-level enhanced strings of the roadmap and mock-interview branches. -/
theorem prompt_contains_fields_verbatim (r g d q lvl t : String) :
    containsVerbatim (resume_prompt r) r ∧
    containsVerbatim (roadmap_prompt g) g ∧
    containsVerbatim (mock_prompt d) d ∧
    containsVerbatim (advice_prompt q) q ∧
    containsVerbatim (roadmap_prompt (g ++ " (Current level: " ++ lvl ++ ")")) g ∧
    containsVerbatim (mock_prompt (d ++ " - " ++ t ++ " focus")) d := by
  refine ⟨⟨resumePre, resumePost, rfl⟩, ⟨roadmapPre, roadmapPost, rfl⟩,
    ⟨mockPre, mockPost, rfl⟩, ⟨advicePre, advicePost, rfl⟩, ?_, ?_⟩
  · exact ⟨roadmapPre, " (Current level: " ++ lvl ++ ")" ++ roadmapPost,
      by simp [roadmap_prompt, String.append_assoc]⟩
  · exact ⟨mockPre, " - " ++ t ++ " focus" ++ mockPost,
      by simp [mock_prompt, String.append_assoc]⟩

/-- Claim C8: for every use case, a successful generation returns the text
unmodified, and the Career Advice dispatch renders exactly that text. -/
theorem success_text_returned_unmodified (gen : GenClient)
    (t r g d q : String) :
    (gen (resume_prompt r) = Except.ok t → (get_resume_feedback gen r).1 = t) ∧
    (gen (roadmap_prompt g) = Except.ok t → (generate_roadmap gen g).1 = t) ∧
    (gen (mock_prompt d) = Except.ok t → (mock_interview gen d).1 = t) ∧
    (gen (advice_prompt q) = Except.ok t → (get_career_advice gen q).1 = t) ∧
    (q ≠ "" → gen (advice_prompt q) = Except.ok t →
      (dispatchCareerAdvice gen q).output = some t) := by
  refine ⟨fun h => ?_, fun h => ?_, fun h => ?_, fun h => ?_, fun hq h => ?_⟩
  · simp [get_resume_feedback, h]
  · simp [generate_roadmap, h]
  · simp [mock_interview, h]
  · simp [get_career_advice, h]
  · simp [dispatchCareerAdvice, hq, get_career_advice, h]

/-- Witness for C8: the spec scenario with a double returning a fixed text on
the salary question yields exactly that text. -/
theorem success_text_returned_unmodified_witness :
    ("How do I negotiate salary?" : String) ≠ "" ∧
    (dispatchCareerAdvice (fun _ => Except.ok "Negotiate from data.")
      "How do I negotiate salary?").output = some "Negotiate from data." :=
  ⟨by decide,
    (success_text_returned_unmodified (fun _ => Except.ok "Negotiate from data.")
      "Negotiate from data." "r" "g" "d" "How do I negotiate salary?").2.2.2.2
      (by decide) rfl⟩

/-- Claim C3: when text extraction fails, the Resume Feedback dispatch sends
no prompt to the generation client, renders no feedback, and surfaces exactly
the extraction error messages. -/
theorem extraction_failure_short_circuits (gen : GenClient) (f : PdfFile)
    (h : (extract_text_from_pdf f).1 = none) :
    (dispatchResumeFeedback gen f).genPrompts = [] ∧
    (dispatchResumeFeedback gen f).output = none ∧
    (dispatchResumeFeedback gen f).errors = (extract_text_from_pdf f).2 := by
  cases hx : extract_text_from_pdf f with
  | mk o errs =>
    rw [hx] at h
    simp only at h
    subst h
    simp [dispatchResumeFeedback, hx]

/-- Witness for C3: a corrupt PDF whose parse raises makes dispatch produce
no generation call and carry the diagnostic. -/
theorem extraction_failure_short_circuits_witness :
    (extract_text_from_pdf (Except.error "EOF marker not found")).1 = none ∧
    ((dispatchResumeFeedback (fun _ => Except.ok "feedback")
        (Except.error "EOF marker not found")).genPrompts = [] ∧
      (dispatchResumeFeedback (fun _ => Except.ok "feedback")
        (Except.error "EOF marker not found")).output = none ∧
      (dispatchResumeFeedback (fun _ => Except.ok "feedback")
        (Except.error "EOF marker not found")).errors =
        (extract_text_from_pdf (Except.error "EOF marker not found")).2) :=
  ⟨rfl, extraction_failure_short_circuits (fun _ => Except.ok "feedback")
    (Except.error "EOF marker not found") rfl⟩

/-- Claim C4: dispatch with an empty required input (goal, domain or
question) makes zero generation calls and renders nothing. -/
theorem empty_input_skips_generation (gen : GenClient) (lvl t : String) :
    (dispatchCareerRoadmap gen "" lvl).genPrompts = [] ∧
    (dispatchCareerRoadmap gen "" lvl).output = none ∧
    (dispatchMockInterview gen "" t).genPrompts = [] ∧
    (dispatchMockInterview gen "" t).output = none ∧
    (dispatchCareerAdvice gen "").genPrompts = [] ∧
    (dispatchCareerAdvice gen "").output = none := by
  refine ⟨?_, ?_, ?_, ?_, ?_, ?_⟩ <;> rfl

/-- Claim C5: on a well-formed PDF whose pages all yield text, extraction
returns exactly the order-preserving concatenation of the page texts with no
separator, and displays no error. -/
theorem extract_concatenates_pages_in_order (texts : List String) :
    extract_text_from_pdf (Except.ok (texts.map Except.ok)) =
      (some (texts.foldl (fun a b => a ++ b) ""), []) := by
  simp [extract_text_from_pdf, extract_pages_ok]

/-- Claim C6: whenever parsing raises, or any page raises part way through,
extraction returns None together with a non-empty diagnostic embedding the
exception text, and never a partial concatenation of the pages read so far. -/
theorem extraction_error_never_partial (e : String) (texts : List String)
    (rest : List (Except String String)) :
    extract_text_from_pdf (Except.error e) =
      (none, ["Error reading PDF: " ++ e]) ∧
    extract_text_from_pdf
        (Except.ok (texts.map Except.ok ++ Except.error e :: rest)) =
      (none, ["Error reading PDF: " ++ e]) ∧
    ("Error reading PDF: " ++ e) ≠ "" ∧
    containsVerbatim ("Error reading PDF: " ++ e) e := by
  refine ⟨rfl, ?_, append_ne_nil _ _ (by decide), cv_tail _ e⟩
  simp [extract_text_from_pdf, extract_pages_error]

/-- Claim C9: a PDF that parses but yields zero extracted characters is
treated like a failed extraction: the generation client is never invoked and
no feedback is produced. -/
theorem empty_extraction_skips_generation (gen : GenClient) (f : PdfFile)
    (h : (extract_text_from_pdf f).1 = some "") :
    (dispatchResumeFeedback gen f).genPrompts = [] ∧
    (dispatchResumeFeedback gen f).output = none := by
  cases hx : extract_text_from_pdf f with
  | mk o errs =>
    rw [hx] at h
    simp only at h
    subst h
    simp [dispatchResumeFeedback, hx]

/-- Witness for C9: a parseable zero-page PDF extracts the empty string and
dispatch makes no generation call. -/
theorem empty_extraction_skips_generation_witness :
    (extract_text_from_pdf (Except.ok [])).1 = some "" ∧
    ((dispatchResumeFeedback (fun _ => Except.ok "feedback")
        (Except.ok [])).genPrompts = [] ∧
      (dispatchResumeFeedback (fun _ => Except.ok "feedback")
        (Except.ok [])).output = none) :=
  ⟨rfl, empty_extraction_skips_generation (fun _ => Except.ok "feedback")
    (Except.ok []) rfl⟩

/-- Claim C10: for every domain and interview focus, the dispatched
mock-interview prompt is the fixed template applied to the enhanced domain
string (so the focus enters only inside the domain slot), and it always
requests 5 technical, 2 behavioral and 1 scenario-based question. -/
theorem mock_interview_counts_fixed (gen : GenClient) (d t : String)
    (hd : d ≠ "") :
    (dispatchMockInterview gen d t).genPrompts =
      [mock_prompt (d ++ " - " ++ t ++ " focus")] ∧
    containsVerbatim (mock_prompt (d ++ " - " ++ t ++ " focus"))
      "1. 5 technical questions (mix of conceptual and practical)" ∧
    containsVerbatim (mock_prompt (d ++ " - " ++ t ++ " focus"))
      "2. 2 behavioral questions" ∧
    containsVerbatim (mock_prompt (d ++ " - " ++ t ++ " focus"))
      "3. 1 scenario-based problem-solving question" ∧
    containsVerbatim (mock_prompt (d ++ " - " ++ t ++ " focus"))
      (d ++ " - " ++ t ++ " focus") := by
  refine ⟨?_, ?_, ?_, ?_, ⟨mockPre, mockPost, rfl⟩⟩
  · cases hr : gen (mock_prompt (d ++ " - " ++ t ++ " focus")) <;>
      simp [dispatchMockInterview, hd, mock_interview, hr]
  · exact cv_slot mockPre (d ++ " - " ++ t ++ " focus")
      " role. \n    \n    Please provide:\n    "
      "1. 5 technical questions (mix of conceptual and practical)"
      "\n    2. 2 behavioral questions\n    3. 1 scenario-based problem-solving question\n    \n    For each question, also provide:\n    - What the interviewer is looking for\n    - Key points a good answer should cover\n    \n    Format this as a realistic interview experience.\n    "
  · exact cv_slot mockPre (d ++ " - " ++ t ++ " focus")
      " role. \n    \n    Please provide:\n    1. 5 technical questions (mix of conceptual and practical)\n    "
      "2. 2 behavioral questions"
      "\n    3. 1 scenario-based problem-solving question\n    \n    For each question, also provide:\n    - What the interviewer is looking for\n    - Key points a good answer should cover\n    \n    Format this as a realistic interview experience.\n    "
  · exact cv_slot mockPre (d ++ " - " ++ t ++ " focus")
      " role. \n    \n    Please provide:\n    1. 5 technical questions (mix of conceptual and practical)\n    2. 2 behavioral questions\n    "
      "3. 1 scenario-based problem-solving question"
      "\n    \n    For each question, also provide:\n    - What the interviewer is looking for\n    - Key points a good answer should cover\n    \n    Format this as a realistic interview experience.\n    "

/-- Witness for C10: concrete domain and focus instantiation. -/
theorem mock_interview_counts_fixed_witness :
    ("Data Analyst" : String) ≠ "" ∧
    ((dispatchMockInterview (fun _ => Except.ok "questions") "Data Analyst"
        "Technical Only").genPrompts =
      [mock_prompt ("Data Analyst" ++ " - " ++ "Technical Only" ++ " focus")] ∧
    containsVerbatim
      (mock_prompt ("Data Analyst" ++ " - " ++ "Technical Only" ++ " focus"))
      "1. 5 technical questions (mix of conceptual and practical)" ∧
    containsVerbatim
      (mock_prompt ("Data Analyst" ++ " - " ++ "Technical Only" ++ " focus"))
      "2. 2 behavioral questions" ∧
    containsVerbatim
      (mock_prompt ("Data Analyst" ++ " - " ++ "Technical Only" ++ " focus"))
      "3. 1 scenario-based problem-solving question" ∧
    containsVerbatim
      (mock_prompt ("Data Analyst" ++ " - " ++ "Technical Only" ++ " focus"))
      ("Data Analyst" ++ " - " ++ "Technical Only" ++ " focus")) :=
  ⟨by decide, mock_interview_counts_fixed (fun _ => Except.ok "questions")
    "Data Analyst" "Technical Only" (by decide)⟩

/-- Claim C7 evaluation: even when the GEMINI_API_KEY environment variable is
absent, the Career Advice dispatch still sends its prompt to the remote
generation service; the credential-absence hypothesis is unused in the proof
precisely because the code performs no credential check before calling
generate_content (the comment at src/chatbot.py line 138 announces such a
check but no code follows it). -/
theorem absent_credential_request_still_attempted
    (env : String → Option String)
    (remote : Option String → String → Except String String) (q : String)
    (hkey : GEMINI_API_KEY env = none) (hq : q ≠ "") :
    (dispatchCareerAdvice (configuredClient env remote) q).genPrompts =
      [advice_prompt q] := by
  cases hr : remote (GEMINI_API_KEY env) (advice_prompt q) <;>
    simp [dispatchCareerAdvice, hq, get_career_advice, configuredClient, hr]

/-- Witness for C7: with no environment variable set at all and a remote that
rejects the request, the prompt is nevertheless sent. -/
theorem absent_credential_request_still_attempted_witness :
    GEMINI_API_KEY (fun _ => none) = none ∧
    ("How do I negotiate salary?" : String) ≠ "" ∧
    (dispatchCareerAdvice
        (configuredClient (fun _ => none)
          (fun _ _ => Except.error "API key not valid"))
        "How do I negotiate salary?").genPrompts =
      [advice_prompt "How do I negotiate salary?"] :=
  ⟨rfl, by decide,
    absent_credential_request_still_attempted (fun _ => none)
      (fun _ _ => Except.error "API key not valid")
      "How do I negotiate salary?" rfl (by decide)⟩

end ResumeChatbot
